import Mathlib

/-!
Shallow embedding of the qr-track core (short-code issuance, redirect-and-track,
analytics aggregation) and proofs about its specified behavior.

Sources embedded:
- src/src/lib/utils.ts         (generateShortCode consumers, parseUserAgent, truncateIP)
- src/src/lib/qr-generator.ts  (db query functions: createQRCode, getQRCodeByShortCode,
                                createScan, getTotalScans, getScansByDate, getDeviceBreakdown,
                                getBrowserBreakdown, getLocationBreakdown)
- src/src/app/api/qr/generate/route.ts  (POST handler with bounded retry loop)
- src/src/app/r/[shortCode]/route.ts    (GET redirect handler with fire-and-forget scan write)
- the analytics GET handler (numeric-id parsing, existence check, five aggregates)
- src/db/schema.sql (row shapes)
-/

namespace QrTrack

/-- A row of the qr_codes table (src/db/schema.sql, src/src/types/database.ts). -/
structure QRCode where
  id : Nat
  short_code : String
  target_url : String
  fg_color : String
  bg_color : String
  created_at : Nat
  scan_count : Nat
  deriving Repr, DecidableEq

/-- A row of the scans table (src/db/schema.sql, src/src/types/database.ts). -/
structure Scan where
  id : Nat
  qr_code_id : Nat
  scanned_at : Nat
  user_agent : Option String
  ip_address : Option String
  country : Option String
  city : Option String
  device_type : Option String
  browser : Option String
  deriving Repr, DecidableEq

/-- The persistent store: both tables plus the SERIAL id counters. -/
structure Store where
  qr_codes : List QRCode
  scans : List Scan
  nextQrId : Nat
  nextScanId : Nat
  deriving Repr, DecidableEq

/-- JavaScript truthiness test for a nullable string: both null and the empty
string are falsy (`!s`). -/
def strFalsy (s : Option String) : Bool := s.getD "" == ""

/-- JavaScript `a || b` on nullable strings (falsy left operand selects `b`). -/
def jsOrElse (a b : Option String) : Option String := if strFalsy a then b else a

/-- JavaScript `h || null`: an absent or empty string becomes null. -/
def jsOrNull (a : Option String) : Option String := if strFalsy a then none else a

/-- JavaScript String.prototype.split with a one-character separator: splitting
the character list at every occurrence of the separator, keeping empty pieces
(so splitting the empty string gives one empty piece, as in JS). -/
def splitOnChar (c : Char) : List Char → List (List Char)
  | [] => [[]]
  | x :: xs =>
    let r := splitOnChar c xs
    if x == c then [] :: r
    else
      match r with
      | [] => [[x]]
      | y :: ys => (x :: y) :: ys

/-- JavaScript `s.split(c)` on strings. -/
def jsSplit (c : Char) (s : String) : List String :=
  (splitOnChar c s.toList).map List.asString

/-- JavaScript `s.includes(c)` for a one-character needle. -/
def strContains (s : String) (c : Char) : Bool := s.toList.contains c

/-- JavaScript Array.prototype.join with the given separator. -/
def joinStrings (sep : String) : List String → String
  | [] => ""
  | x :: xs => xs.foldl (fun acc y => acc ++ sep ++ y) x

/-- JavaScript array assignment `parts[3] = "0"`: when index 3 is past the end the
array is extended, holes joining as empty strings. -/
def setPart3 (parts : List String) : List String :=
  (parts ++ List.replicate (4 - parts.length) "").set 3 "0"

/-- truncateIP from src/src/lib/utils.ts: `!ip` passes null through (and maps the
empty string to null); inputs containing a dot get `parts[3] = "0"` after splitting
on dots; otherwise inputs containing a colon keep their first four colon groups
with a `::` suffix; anything else is returned unchanged. -/
def truncateIP (ip : Option String) : Option String :=
  if strFalsy ip then none
  else
    let s := ip.getD ""
    if strContains s '.' then
      some (joinStrings "." (setPart3 (jsSplit '.' s)))
    else if strContains s ':' then
      some (joinStrings ":" ((jsSplit ':' s).take 4) ++ "::")
    else
      some s

/-- Output of the external ua-parser-js library for one user-agent string:
`device.type` (undefined for desktops and unrecognized agents) and `browser.name`. -/
structure UAInfo where
  deviceType : Option String
  browserName : Option String
  deriving Repr, DecidableEq

/-- parseUserAgent from src/src/lib/utils.ts, parameterized by the external
ua-parser-js parse result. `!userAgent` (null or empty) short-circuits to
`(unknown, unknown)`; otherwise mobile and tablet pass through and every other
device classification (including console, wearable, or none) becomes desktop;
`browser.name || 'unknown'` supplies the browser fallback. -/
def parseUserAgent (parse : String → UAInfo) (userAgent : Option String) :
    String × String :=
  if strFalsy userAgent then ("unknown", "unknown")
  else
    let info := parse (userAgent.getD "")
    let deviceType :=
      if info.deviceType == some "mobile" then "mobile"
      else if info.deviceType == some "tablet" then "tablet"
      else if strFalsy info.deviceType || info.deviceType == some "console"
          || info.deviceType == some "wearable" then "desktop"
      else "desktop"
    let browserName := if strFalsy info.browserName then "unknown" else info.browserName.getD ""
    (deviceType, browserName)

/-- Storage-layer failures distinguished by the generate route: a unique-constraint
violation on short_code (`duplicate key` / code 23505) versus any other failure. -/
inductive DbError
  | dupKey
  | otherFailure
  deriving Repr, DecidableEq

/-- getQRCodeByShortCode from src/src/lib (SELECT * FROM qr_codes WHERE short_code = $1 LIMIT 1). -/
def getQRCodeByShortCode (store : Store) (code : String) : Option QRCode :=
  store.qr_codes.find? (fun q => q.short_code == code)

/-- createQRCode from src/src/lib (INSERT INTO qr_codes ... RETURNING *). The
`dbFail` flag models the storage layer being unavailable (a non-uniqueness
failure); otherwise the unique index on short_code rejects duplicates. -/
def createQRCode (store : Store) (dbFail : Bool) (code url fg bg : String)
    (now : Nat) : Except DbError (QRCode × Store) :=
  if dbFail then .error .otherFailure
  else if store.qr_codes.any (fun q => q.short_code == code) then .error .dupKey
  else
    let qr : QRCode := ⟨store.nextQrId, code, url, fg, bg, now, 0⟩
    .ok (qr, { store with qr_codes := store.qr_codes ++ [qr], nextQrId := store.nextQrId + 1 })

/-- Response of the redirect route GET /r/[shortCode]. -/
inductive RedirectResult
  | redirect (location : String) (status : Nat)
  | notFound
  | failure (status : Nat)
  deriving Repr, DecidableEq

/-- The GET handler of src/src/app/r/[shortCode]/route.ts. Header values are
passed as nullable strings; `parse` is the external ua-parser-js; `scanWriteOk`
models whether the fire-and-forget createScan INSERT succeeds (its rejection is
caught and only logged, so it influences the stored scans but never the
response). Returns the HTTP response together with the resulting store. -/
def GETredirect (store : Store) (code : String)
    (uaHeader ipFwd ipReal countryHeader cityHeader : Option String)
    (parse : String → UAInfo) (now : Nat) (scanWriteOk : Bool) :
    RedirectResult × Store :=
  match getQRCodeByShortCode store code with
  | none => (.notFound, store)
  | some qr =>
    let parsed := parseUserAgent parse uaHeader
    let ip := jsOrElse ipFwd ipReal
    let event : Scan :=
      ⟨store.nextScanId, qr.id, now, uaHeader, truncateIP ip,
        jsOrNull countryHeader, jsOrNull cityHeader, some parsed.1, some parsed.2⟩
    let store2 :=
      if scanWriteOk then
        { store with scans := store.scans ++ [event], nextScanId := store.nextScanId + 1 }
      else store
    (.redirect qr.target_url 302, store2)

/-- Response of POST /api/qr/generate. -/
inductive GenResult
  | created (id : Nat) (short_code short_url qr_code_data_url analytics_url : String)
  | invalidInput
  | serverError
  deriving Repr, DecidableEq

/-- The retry loop of the generate route: `while (attempts < MAX_ATTEMPTS)` with
one createQRCode call per iteration, regenerating the candidate code on a
uniqueness violation, rethrowing any other failure, and rendering the QR image
(`render`, none when the external renderer throws) after a successful insert.
`codes i` is the i-th output of generateShortCode; `fuel` is the number of loop
iterations still allowed. Returns the response, the resulting store, and the
number of persistence attempts performed. -/
def runAttempts (url fg bg : String) (codes : Nat → String) (dbFail : Nat → Bool)
    (render : Option String) (baseURL : String) (now : Nat) :
    Nat → Nat → Store → GenResult × Store × Nat
  | _, 0, store => (.serverError, store, 0)
  | attempt, fuel + 1, store =>
    match createQRCode store (dbFail attempt) (codes attempt) url fg bg now with
    | .ok (qr, store2) =>
      match render with
      | some dataUrl =>
        (.created qr.id (codes attempt) (baseURL ++ "/r/" ++ codes attempt) dataUrl
          (baseURL ++ "/analytics/" ++ toString qr.id), store2, 1)
      | none => (.serverError, store2, 1)
    | .error .dupKey =>
      let r := runAttempts url fg bg codes dbFail render baseURL now (attempt + 1) fuel store
      (r.1, r.2.1, r.2.2 + 1)
    | .error .otherFailure => (.serverError, store, 1)

/-- The POST handler of src/src/app/api/qr/generate/route.ts. `validInput` models
the zod parse of the request body (targetUrl URL check plus hex color checks);
MAX_ATTEMPTS is 5. -/
def POSTgenerate (store : Store) (validInput : Bool) (url fg bg : String)
    (codes : Nat → String) (dbFail : Nat → Bool) (render : Option String)
    (baseURL : String) (now : Nat) : GenResult × Store × Nat :=
  if validInput then runAttempts url fg bg codes dbFail render baseURL now 0 5 store
  else (.invalidInput, store, 0)

/-- JavaScript whitespace accepted by parseInt before the number: tab through
carriage return (codepoints 9 to 13) and the space character. -/
def jsWhitespace (c : Char) : Bool :=
  decide (c.toNat = 32 ∨ (9 ≤ c.toNat ∧ c.toNat ≤ 13))

/-- Numeric value of a digit character (hex letters included), by codepoint:
48-57 are the decimal digits, 97-102 and 65-70 the hex letters. -/
def digitVal (c : Char) : Option Nat :=
  let n := c.toNat
  if 48 ≤ n ∧ n ≤ 57 then some (n - 48)
  else if 97 ≤ n ∧ n ≤ 102 then some (n - 87)
  else if 65 ≤ n ∧ n ≤ 70 then some (n - 55)
  else none

/-- Whether a character is a digit of the given base. -/
def isBaseDigit (base : Nat) (c : Char) : Bool :=
  match digitVal c with
  | some v => decide (v < base)
  | none => false

/-- Value of a digit string in the given base, most significant digit first. -/
def digitsToNat (base : Nat) (ds : List Char) : Nat :=
  ds.foldl (fun acc c => base * acc + (digitVal c).getD 0) 0

/-- JavaScript parseInt with no radix argument: leading whitespace skipped, an
optional sign, an optional 0x/0X hex marker, then the longest digit run; NaN
(here none) when that run is empty. Trailing garbage is ignored, so
parseInt of 12abc is 12. -/
def jsParseInt (s : String) : Option Int :=
  let cs := s.toList.dropWhile jsWhitespace
  let signed : Int × List Char :=
    match cs with
    | '-' :: r => (-1, r)
    | '+' :: r => (1, r)
    | _ => (1, cs)
  let based : Nat × List Char :=
    match signed.2 with
    | '0' :: 'x' :: r => (16, r)
    | '0' :: 'X' :: r => (16, r)
    | _ => (10, signed.2)
  let ds := based.2.takeWhile (isBaseDigit based.1)
  if ds.isEmpty then none else some (signed.1 * (digitsToNat based.1 ds : Int))

/-- SQL GROUP BY key / COUNT(*): one entry per distinct key value occurring in
the list (SQL groups NULLs together, matching grouping on the raw Option value),
paired with the number of rows having that key. -/
def groupCounts {α β : Type} [DecidableEq β] (key : α → β) (l : List α) :
    List (β × Nat) :=
  (l.map key).dedup.map (fun k => (k, l.countP (fun a => decide (key a = k))))

/-- Insert into a list sorted by the boolean relation `le` (model of the sort
order the database applies for ORDER BY). -/
def insertLe {α : Type} (le : α → α → Bool) (p : α) : List α → List α
  | [] => [p]
  | q :: qs => if le p q then p :: q :: qs else q :: insertLe le p qs

/-- Insertion sort by the boolean relation `le` (model of ORDER BY). -/
def sortByLe {α : Type} (le : α → α → Bool) (l : List α) : List α :=
  l.foldr (insertLe le) []

/-- WHERE qr_code_id = $1 over the scans table. The parameter is the Int the
route parsed, compared against the integer column. -/
def scansFor (store : Store) (qrCodeId : Int) : List Scan :=
  store.scans.filter (fun s => (s.qr_code_id : Int) == qrCodeId)

/-- getTotalScans from src/src/lib (SELECT COUNT(*) FROM scans WHERE qr_code_id = $1). -/
def getTotalScans (store : Store) (qrCodeId : Int) : Nat :=
  (scansFor store qrCodeId).length

/-- SQL DATE() of a stored timestamp (seconds), yielding the calendar day number. -/
def dateOf (t : Nat) : Nat := t / 86400

/-- ORDER BY date ASC comparison. -/
def dateLe (a b : Nat × Nat) : Bool := decide (a.1 ≤ b.1)

/-- ORDER BY count DESC comparison (count is the second component). -/
def countGe {γ : Type} (a b : γ × Nat) : Bool := decide (b.2 ≤ a.2)

/-- getScansByDate from src/src/lib: group the code's scans by DATE(scanned_at),
count each group, ORDER BY date ASC. -/
def getScansByDate (store : Store) (qrCodeId : Int) : List (Nat × Nat) :=
  sortByLe dateLe (groupCounts (fun s => dateOf s.scanned_at) (scansFor store qrCodeId))

/-- SQL COALESCE(col, 'unknown') on a nullable text column. -/
def coalesce (o : Option String) : String := o.getD "unknown"

/-- getDeviceBreakdown from src/src/lib: GROUP BY device_type (the raw nullable
column) with COALESCE(device_type, 'unknown') in the select list; no ORDER BY. -/
def getDeviceBreakdown (store : Store) (qrCodeId : Int) : List (String × Nat) :=
  (groupCounts (fun s => s.device_type) (scansFor store qrCodeId)).map
    (fun p => (coalesce p.1, p.2))

/-- getBrowserBreakdown from src/src/lib: GROUP BY browser (raw nullable column),
COALESCE to 'unknown', ORDER BY count DESC LIMIT 10. -/
def getBrowserBreakdown (store : Store) (qrCodeId : Int) : List (String × Nat) :=
  ((sortByLe countGe (groupCounts (fun s => s.browser) (scansFor store qrCodeId))).take 10).map
    (fun p => (coalesce p.1, p.2))

/-- getLocationBreakdown from src/src/lib: GROUP BY country, city (raw nullable
columns), COALESCE each to 'unknown', ORDER BY count DESC LIMIT 20. -/
def getLocationBreakdown (store : Store) (qrCodeId : Int) :
    List (String × String × Nat) :=
  ((sortByLe countGe
      (groupCounts (fun s => (s.country, s.city)) (scansFor store qrCodeId))).take 20).map
    (fun p => (coalesce p.1.1, coalesce p.1.2, p.2))

/-- The 200 payload of the analytics route (ScanAnalytics in src/src/types/database.ts). -/
structure ScanAnalytics where
  total_scans : Nat
  scans_by_date : List (Nat × Nat)
  device_breakdown : List (String × Nat)
  browser_breakdown : List (String × Nat)
  location_breakdown : List (String × String × Nat)
  deriving Repr, DecidableEq

/-- Response of GET /api/analytics/[qrId]. -/
inductive AnalyticsResponse
  | ok (payload : ScanAnalytics)
  | badRequest
  | notFound
  deriving Repr, DecidableEq

/-- getQRCodeById from src/src/lib (SELECT * FROM qr_codes WHERE id = $1 LIMIT 1). -/
def getQRCodeById (store : Store) (qrId : Int) : Option QRCode :=
  store.qr_codes.find? (fun q => (q.id : Int) == qrId)

/-- The analytics GET handler: parseInt the path parameter (isNaN gives 400),
check the QRCode exists (404 otherwise), then assemble the five aggregates. -/
def GETanalytics (store : Store) (qrIdParam : String) : AnalyticsResponse :=
  match jsParseInt qrIdParam with
  | none => .badRequest
  | some qrId =>
    match getQRCodeById store qrId with
    | none => .notFound
    | some _ =>
      .ok ⟨getTotalScans store qrId, getScansByDate store qrId,
        getDeviceBreakdown store qrId, getBrowserBreakdown store qrId,
        getLocationBreakdown store qrId⟩

/-- Replace every denormalized scan_count with an arbitrary value (by id):
used to state that the analytics aggregates never consult that column. -/
def setScanCounts (f : Nat → Nat) (store : Store) : Store :=
  { store with qr_codes := store.qr_codes.map (fun q => { q with scan_count := f q.id }) }

/-- A ua-parser-js stand-in that recognizes nothing. -/
def uaParseStub : String → UAInfo := fun _ => ⟨none, none⟩

/-! ### Helper lemmas -/

theorem mem_insertLe {α : Type} (le : α → α → Bool) (p : α) (l : List α) (a : α) :
    a ∈ insertLe le p l ↔ a = p ∨ a ∈ l := by
  induction l with
  | nil => simp [insertLe]
  | cons q qs ih =>
    simp only [insertLe]
    split
    · simp [List.mem_cons]
    · simp only [List.mem_cons, ih]
      tauto

theorem pairwise_insertLe {α : Type} (le : α → α → Bool)
    (htrans : ∀ a b c, le a b = true → le b c = true → le a c = true)
    (htot : ∀ a b, le a b = true ∨ le b a = true) (p : α) (l : List α)
    (h : l.Pairwise (fun a b => le a b = true)) :
    (insertLe le p l).Pairwise (fun a b => le a b = true) := by
  induction l with
  | nil => simp [insertLe]
  | cons q qs ih =>
    rcases List.pairwise_cons.mp h with ⟨hq, hqs⟩
    simp only [insertLe]
    split
    · rename_i hle
      refine List.pairwise_cons.mpr ⟨fun b hb => ?_, h⟩
      rcases List.mem_cons.mp hb with rfl | hb
      · exact hle
      · exact htrans _ _ _ hle (hq b hb)
    · rename_i hnle
      have hqp : le q p = true := (htot p q).resolve_left hnle
      refine List.pairwise_cons.mpr ⟨fun b hb => ?_, ih hqs⟩
      rcases (mem_insertLe le p qs b).mp hb with rfl | hb
      · exact hqp
      · exact hq b hb

theorem sortByLe_cons {α : Type} (le : α → α → Bool) (a : α) (l : List α) :
    sortByLe le (a :: l) = insertLe le a (sortByLe le l) := rfl

theorem pairwise_sortByLe {α : Type} (le : α → α → Bool)
    (htrans : ∀ a b c, le a b = true → le b c = true → le a c = true)
    (htot : ∀ a b, le a b = true ∨ le b a = true) (l : List α) :
    (sortByLe le l).Pairwise (fun a b => le a b = true) := by
  induction l with
  | nil => exact List.Pairwise.nil
  | cons a l ih => exact pairwise_insertLe le htrans htot a _ ih

theorem mem_sortByLe {α : Type} (le : α → α → Bool) (l : List α) (a : α) :
    a ∈ sortByLe le l ↔ a ∈ l := by
  induction l with
  | nil => simp [sortByLe]
  | cons q qs ih =>
    rw [sortByLe_cons, mem_insertLe]
    simp only [List.mem_cons, ih]

theorem top_of_take {α : Type} (le : α → α → Bool)
    (htrans : ∀ a b c, le a b = true → le b c = true → le a c = true)
    (htot : ∀ a b, le a b = true ∨ le b a = true) (l : List α) (k : Nat) :
    ∀ p ∈ (sortByLe le l).take k, ∀ q ∈ l, q ∉ (sortByLe le l).take k →
      le p q = true := by
  intro p hp q hq hqnot
  have hsorted := pairwise_sortByLe le htrans htot l
  have hq2 : q ∈ sortByLe le l := (mem_sortByLe le l q).mpr hq
  rw [← List.take_append_drop k (sortByLe le l)] at hsorted hq2
  rcases List.mem_append.mp hq2 with h | h
  · exact absurd h hqnot
  · exact (List.pairwise_append.mp hsorted).2.2 p hp q h

theorem mem_groupCounts {α β : Type} [DecidableEq β] (key : α → β) (l : List α)
    (p : β × Nat) (hp : p ∈ groupCounts key l) :
    p.2 = l.countP (fun a => decide (key a = p.1)) ∧ 0 < p.2 := by
  unfold groupCounts at hp
  rcases List.mem_map.mp hp with ⟨k, hk, rfl⟩
  refine ⟨rfl, ?_⟩
  rcases List.mem_map.mp (List.mem_dedup.mp hk) with ⟨a, ha, rfl⟩
  exact List.countP_pos_iff.mpr ⟨a, ha, by simp⟩

theorem dateLe_trans :
    ∀ a b c : Nat × Nat, dateLe a b = true → dateLe b c = true → dateLe a c = true := by
  intro a b c h1 h2
  simp only [dateLe, decide_eq_true_eq] at *
  omega

theorem dateLe_total : ∀ a b : Nat × Nat, dateLe a b = true ∨ dateLe b a = true := by
  intro a b
  simp only [dateLe, decide_eq_true_eq]
  omega

theorem countGe_trans {γ : Type} :
    ∀ a b c : γ × Nat, countGe a b = true → countGe b c = true → countGe a c = true := by
  intro a b c h1 h2
  simp only [countGe, decide_eq_true_eq] at *
  omega

theorem countGe_total {γ : Type} :
    ∀ a b : γ × Nat, countGe a b = true ∨ countGe b a = true := by
  intro a b
  simp only [countGe, decide_eq_true_eq]
  omega

theorem setPart3_two (p1 p2 : String) : setPart3 [p1, p2] = [p1, p2, "", "0"] := by
  unfold setPart3
  rfl

theorem setPart3_three (p1 p2 p3 : String) :
    setPart3 [p1, p2, p3] = [p1, p2, p3, "0"] := by
  unfold setPart3
  rfl

theorem setPart3_cons4 (p1 p2 p3 p4 : String) (rest : List String) :
    setPart3 (p1 :: p2 :: p3 :: p4 :: rest) = p1 :: p2 :: p3 :: "0" :: rest := by
  unfold setPart3
  have h : 4 - (p1 :: p2 :: p3 :: p4 :: rest).length = 0 := by
    simp only [List.length_cons]
    omega
  rw [h, List.replicate_zero, List.append_nil]
  rfl

theorem splitOnChar_ne_nil (c : Char) (l : List Char) : splitOnChar c l ≠ [] := by
  cases l with
  | nil => simp [splitOnChar]
  | cons x xs =>
    simp only [splitOnChar]
    split
    · simp
    · rcases h : splitOnChar c xs with _ | ⟨y, ys⟩ <;> simp [h]

theorem two_le_splitOnChar_of_contains (c : Char) :
    ∀ l : List Char, l.contains c = true → 2 ≤ (splitOnChar c l).length := by
  intro l
  induction l with
  | nil =>
    intro h
    simp at h
  | cons x xs ih =>
    intro h
    simp only [splitOnChar]
    by_cases hxc : (x == c) = true
    · simp only [hxc, if_true, List.length_cons]
      have hne := splitOnChar_ne_nil c xs
      have hpos : 0 < (splitOnChar c xs).length := List.length_pos.mpr hne
      omega
    · have hxs : xs.contains c = true := by
        rcases hcc : xs.contains c with _ | _
        · rw [List.contains_cons, hcc] at h
          simp only [Bool.or_false, beq_iff_eq] at h
          exact absurd (by simp [h]) hxc
        · rfl
      have h2 := ih hxs
      simp only [hxc, Bool.false_eq_true, if_false]
      rcases hr : splitOnChar c xs with _ | ⟨y, ys⟩
      · exact absurd hr (splitOnChar_ne_nil c xs)
      · rw [hr] at h2
        simp only [List.length_cons] at h2 ⊢
        omega

theorem find?_append_of_none {α : Type} (p : α → Bool) (l1 l2 : List α)
    (h : l1.find? p = none) : (l1 ++ l2).find? p = l2.find? p := by
  induction l1 with
  | nil => rfl
  | cons a l ih =>
    rcases hpa : p a with _ | _
    · simp only [List.cons_append, List.find?_cons, hpa] at h ⊢
      exact ih h
    · simp [List.find?_cons, hpa] at h

/-! ### Concrete fixtures used by witnesses and counterexamples -/

/-- The empty store with SERIAL counters at 1. -/
def emptyStore : Store := ⟨[], [], 1, 1⟩

/-- A store holding one issued QRCode with short code abc. -/
def oneQrStore : Store :=
  ⟨[⟨1, "abc", "https://example.com", "#000000", "#FFFFFF", 0, 0⟩], [], 2, 1⟩

/-! ### Claim theorems -/

/-- Claim C2: for every short code that resolves to a stored QRCode, the redirect
handler returns the 302 redirect to the stored target URL whether the
scan-recording persistence step succeeds or fails; the scan-write outcome never
reaches the redirect response. -/
theorem claim_C2 (store : Store) (code : String)
    (ua ipF ipR co ci : Option String) (parse : String → UAInfo) (now : Nat)
    (qr : QRCode) (hres : getQRCodeByShortCode store code = some qr)
    (scanWriteOk : Bool) :
    (GETredirect store code ua ipF ipR co ci parse now scanWriteOk).1 =
      .redirect qr.target_url 302 := by
  simp [GETredirect, hres]

/-- Witness for claim C2: a concrete resolving store, with the scan write both
failing and succeeding. -/
theorem claim_C2_witness :
    (GETredirect oneQrStore "abc" none none none none none uaParseStub 0 false).1 =
      .redirect "https://example.com" 302 ∧
    (GETredirect oneQrStore "abc" none none none none none uaParseStub 0 true).1 =
      .redirect "https://example.com" 302 :=
  ⟨claim_C2 oneQrStore "abc" none none none none none uaParseStub 0 _ rfl false,
   claim_C2 oneQrStore "abc" none none none none none uaParseStub 0 _ rfl true⟩

/-- Claim C4: for every short code that does not resolve, the redirect handler
returns NotFound (404) and the stored set of scans is unchanged: no ScanEvent
is created. -/
theorem claim_C4 (store : Store) (code : String)
    (ua ipF ipR co ci : Option String) (parse : String → UAInfo) (now : Nat)
    (scanWriteOk : Bool) (hmiss : getQRCodeByShortCode store code = none) :
    GETredirect store code ua ipF ipR co ci parse now scanWriteOk =
      (.notFound, store) ∧
    (GETredirect store code ua ipF ipR co ci parse now scanWriteOk).2.scans =
      store.scans := by
  simp [GETredirect, hmiss]

/-- Witness for claim C4 at the concrete unknown code. -/
theorem claim_C4_witness :
    GETredirect oneQrStore "unknown-code" none none none none none uaParseStub 0 true =
      (.notFound, oneQrStore) ∧
    (GETredirect oneQrStore "unknown-code" none none none none none uaParseStub 0 true).2.scans =
      oneQrStore.scans :=
  claim_C4 oneQrStore "unknown-code" none none none none none uaParseStub 0 true rfl

/-- Counterexample for claim C6: the input 1.2.3 is neither a dotted-quad nor
colon-delimited, so the claim requires it to pass through unchanged, yet
truncateIP rewrites it to 1.2.3.0 (the code takes the dot branch for every
input containing a dot and assigns index 3 of the split). -/
theorem claim_C6_counterexample :
    truncateIP (some "1.2.3") = some "1.2.3.0" ∧
    some "1.2.3.0" ≠ (some "1.2.3" : Option String) := by
  constructor
  · decide
  · decide

/-- Claim C6 as amended: null and empty inputs give null; every input containing
a dot is split on dots (always at least two segments) and its fourth segment is
set to the string 0, the segment list padded with empty segments when it has
fewer than four — stated exhaustively for two-segment, three-segment, and
four-or-more-segment splits, so a genuine dotted-quad has its last segment
zeroed; a dot-free colon-delimited input keeps its first four colon groups with
a trailing double colon; an input with neither dots nor colons is unchanged. -/
theorem claim_C6_amended :
    truncateIP none = none ∧
    truncateIP (some "") = none ∧
    truncateIP (some "192.168.1.100") = some "192.168.1.0" ∧
    (∀ s : String, strContains s '.' = true → 2 ≤ (jsSplit '.' s).length) ∧
    (∀ s p1 p2 : String, strContains s '.' = true →
      jsSplit '.' s = [p1, p2] →
      truncateIP (some s) = some (joinStrings "." [p1, p2, "", "0"])) ∧
    (∀ s p1 p2 p3 : String, strContains s '.' = true →
      jsSplit '.' s = [p1, p2, p3] →
      truncateIP (some s) = some (joinStrings "." [p1, p2, p3, "0"])) ∧
    (∀ (s p1 p2 p3 p4 : String) (rest : List String), strContains s '.' = true →
      jsSplit '.' s = p1 :: p2 :: p3 :: p4 :: rest →
      truncateIP (some s) = some (joinStrings "." (p1 :: p2 :: p3 :: "0" :: rest))) ∧
    (∀ s p1 p2 p3 p4 : String, strContains s '.' = true →
      jsSplit '.' s = [p1, p2, p3, p4] →
      truncateIP (some s) = some (p1 ++ "." ++ p2 ++ "." ++ p3 ++ "." ++ "0")) ∧
    (∀ s : String, s ≠ "" → strContains s '.' = false → strContains s ':' = true →
      truncateIP (some s) =
        some (joinStrings ":" ((jsSplit ':' s).take 4) ++ "::")) ∧
    (∀ s : String, s ≠ "" → strContains s '.' = false → strContains s ':' = false →
      truncateIP (some s) = some s) := by
  refine ⟨by decide, by decide, by decide, ?_, ?_, ?_, ?_, ?_, ?_, ?_⟩
  · intro s hdot
    unfold jsSplit
    rw [List.length_map]
    exact two_le_splitOnChar_of_contains '.' s.toList hdot
  · intro s p1 p2 hdot hsplit
    have hne : s ≠ "" := by
      intro he
      rw [he] at hdot
      exact absurd hdot (by decide)
    have hfalsy : strFalsy (some s) = false := by
      simp [strFalsy, hne]
    simp only [truncateIP, hfalsy, Bool.false_eq_true, if_false, Option.getD_some,
      hdot, if_true, hsplit, setPart3_two]
  · intro s p1 p2 p3 hdot hsplit
    have hne : s ≠ "" := by
      intro he
      rw [he] at hdot
      exact absurd hdot (by decide)
    have hfalsy : strFalsy (some s) = false := by
      simp [strFalsy, hne]
    simp only [truncateIP, hfalsy, Bool.false_eq_true, if_false, Option.getD_some,
      hdot, if_true, hsplit, setPart3_three]
  · intro s p1 p2 p3 p4 rest hdot hsplit
    have hne : s ≠ "" := by
      intro he
      rw [he] at hdot
      exact absurd hdot (by decide)
    have hfalsy : strFalsy (some s) = false := by
      simp [strFalsy, hne]
    simp only [truncateIP, hfalsy, Bool.false_eq_true, if_false, Option.getD_some,
      hdot, if_true, hsplit, setPart3_cons4]
  · intro s p1 p2 p3 p4 hdot hsplit
    have hne : s ≠ "" := by
      intro he
      rw [he] at hdot
      exact absurd hdot (by decide)
    have hfalsy : strFalsy (some s) = false := by
      simp [strFalsy, hne]
    simp only [truncateIP, hfalsy, Bool.false_eq_true, if_false, Option.getD_some,
      hdot, if_true, hsplit, setPart3]
    rfl
  · intro s hne hdot hcolon
    have hfalsy : strFalsy (some s) = false := by
      simp [strFalsy, hne]
    simp [truncateIP, hfalsy, hdot, hcolon]
  · intro s hne hdot hcolon
    have hfalsy : strFalsy (some s) = false := by
      simp [strFalsy, hne]
    simp [truncateIP, hfalsy, hdot, hcolon]

/-- Witness for claim C6 as amended: each branch applied at a concrete address. -/
theorem claim_C6_amended_witness :
    truncateIP (some "1.2") = some (joinStrings "." ["1", "2", "", "0"]) ∧
    truncateIP (some "1.2.3.4.5") = some (joinStrings "." ["1", "2", "3", "0", "5"]) ∧
    truncateIP (some "10.20.30.40") = some ("10" ++ "." ++ "20" ++ "." ++ "30" ++ "." ++ "0") ∧
    truncateIP (some "2001:0db8:85a3:0000:0000:8a2e:0370:7334") =
      some (joinStrings ":"
        ((jsSplit ':' "2001:0db8:85a3:0000:0000:8a2e:0370:7334").take 4) ++ "::") ∧
    truncateIP (some "not-an-ip") = some "not-an-ip" :=
  ⟨(claim_C6_amended.2.2.2.2.1) "1.2" "1" "2" (by decide) (by decide),
   (claim_C6_amended.2.2.2.2.2.2.1) "1.2.3.4.5" "1" "2" "3" "4" ["5"]
     (by decide) (by decide),
   (claim_C6_amended.2.2.2.2.2.2.2.1) "10.20.30.40" "10" "20" "30" "40"
     (by decide) (by decide),
   (claim_C6_amended.2.2.2.2.2.2.2.2.1) "2001:0db8:85a3:0000:0000:8a2e:0370:7334"
     (by decide) (by decide) (by decide),
   (claim_C6_amended.2.2.2.2.2.2.2.2.2) "not-an-ip" (by decide) (by decide) (by decide)⟩

/-- Counterexample for claim C7: the empty user-agent string is a non-null input
on which the parser detects neither mobile nor tablet, so the claim requires
device type desktop, yet the handler's `!userAgent` truthiness test treats the
empty string like null and returns (unknown, unknown). -/
theorem claim_C7_counterexample :
    (some "" : Option String) ≠ none ∧
    (uaParseStub "").deviceType ≠ some "mobile" ∧
    (uaParseStub "").deviceType ≠ some "tablet" ∧
    parseUserAgent uaParseStub (some "") = ("unknown", "unknown") ∧
    ("unknown" : String) ≠ "desktop" := by
  refine ⟨by decide, by decide, by decide, by decide, by decide⟩

/-- Claim C7 as amended: an absent or empty user-agent yields
(unknown, unknown); for every non-empty input the device type is mobile or
tablet exactly when the parser explicitly detects it, every other detected or
undetected case is normalized to desktop, and the browser name is the literal
unknown whenever no browser name is parsed. -/
theorem claim_C7_amended (parse : String → UAInfo) :
    parseUserAgent parse none = ("unknown", "unknown") ∧
    parseUserAgent parse (some "") = ("unknown", "unknown") ∧
    (∀ s : String, s ≠ "" →
      ((parseUserAgent parse (some s)).1 = "mobile" ↔
        (parse s).deviceType = some "mobile") ∧
      ((parseUserAgent parse (some s)).1 = "tablet" ↔
        (parse s).deviceType = some "tablet") ∧
      ((parse s).deviceType ≠ some "mobile" → (parse s).deviceType ≠ some "tablet" →
        (parseUserAgent parse (some s)).1 = "desktop") ∧
      ((parse s).browserName = none → (parseUserAgent parse (some s)).2 = "unknown")) := by
  refine ⟨rfl, rfl, ?_⟩
  intro s hs
  have hfalsy : strFalsy (some s) = false := by
    simp [strFalsy, hs]
  by_cases hmob : (parse s).deviceType = some "mobile"
  · refine ⟨?_, ?_, ?_, ?_⟩
    · simp [parseUserAgent, hfalsy, hmob]
    · simp [parseUserAgent, hfalsy, hmob]
    · intro hc
      exact absurd hmob hc
    · intro hb
      simp [parseUserAgent, hfalsy, strFalsy, hb, hs]
  · by_cases htab : (parse s).deviceType = some "tablet"
    · refine ⟨?_, ?_, ?_, ?_⟩
      · simp [parseUserAgent, hfalsy, hmob, htab]
      · simp [parseUserAgent, hfalsy, hmob, htab]
      · intro _ hc
        exact absurd htab hc
      · intro hb
        simp [parseUserAgent, hfalsy, strFalsy, hb, hs]
    · have hdesk : (parseUserAgent parse (some s)).1 = "desktop" := by
        simp only [parseUserAgent, hfalsy, Bool.false_eq_true, if_false, Option.getD_some]
        have h1 : ((parse s).deviceType == some "mobile") = false := by
          simpa using hmob
        have h2 : ((parse s).deviceType == some "tablet") = false := by
          simpa using htab
        simp only [h1, h2, Bool.false_eq_true, if_false]
        split <;> rfl
      refine ⟨?_, ?_, fun _ _ => hdesk, ?_⟩
      · rw [hdesk]
        simp [hmob]
      · rw [hdesk]
        simp [htab]
      · intro hb
        simp [parseUserAgent, hfalsy, strFalsy, hb, hs]

/-- Witness for claim C7 as amended: the stub parser detects nothing, so a
non-empty agent string classifies as desktop with browser unknown. -/
theorem claim_C7_amended_witness :
    parseUserAgent uaParseStub none = ("unknown", "unknown") ∧
    parseUserAgent uaParseStub (some "") = ("unknown", "unknown") ∧
    (parseUserAgent uaParseStub (some "Mozilla")).1 = "desktop" ∧
    (parseUserAgent uaParseStub (some "Mozilla")).2 = "unknown" := by
  have h := claim_C7_amended uaParseStub
  have h3 := h.2.2 "Mozilla" (by decide)
  exact ⟨h.1, h.2.1, h3.2.2.1 (by decide) (by decide), h3.2.2.2 rfl⟩

/-- A store holding one QRCode with id 12, used to show a non-numeric id can
even produce a 200 response. -/
def qr12Store : Store :=
  ⟨[⟨12, "xyz", "https://example.com", "#000000", "#FFFFFF", 0, 0⟩], [], 13, 1⟩

/-- Counterexample for claim C9: the id parameter 12abc is not numeric, so the
claim requires HTTP 400, but parseInt extracts the prefix 12: against an empty
store the route answers 404, and against a store holding id 12 it even answers
200 with a full analytics payload. -/
theorem claim_C9_counterexample :
    jsParseInt "12abc" = some 12 ∧
    GETanalytics emptyStore "12abc" = .notFound ∧
    GETanalytics qr12Store "12abc" = .ok ⟨0, [], [], [], []⟩ ∧
    (AnalyticsResponse.notFound ≠ .badRequest ∧
      AnalyticsResponse.ok ⟨0, [], [], [], []⟩ ≠ .badRequest) := by
  refine ⟨by decide, by decide, by decide, by decide, by decide⟩

/-- Claim C9 as amended: the analytics endpoint returns 400 exactly for id
inputs from which parseInt extracts no integer at all; an input with a parseable
integer prefix is treated as that integer, and when no stored QRCode has that id
the endpoint returns 404 — never a 200 with an empty payload. -/
theorem claim_C9_amended (store : Store) (s : String) :
    (jsParseInt s = none → GETanalytics store s = .badRequest) ∧
    (∀ i : Int, jsParseInt s = some i →
      (∀ q ∈ store.qr_codes, (q.id : Int) ≠ i) →
      GETanalytics store s = .notFound) := by
  constructor
  · intro h
    simp [GETanalytics, h]
  · intro i h hq
    have hfind : getQRCodeById store i = none := by
      unfold getQRCodeById
      refine List.find?_eq_none.mpr ?_
      intro q hqmem
      simpa using hq q hqmem
    simp [GETanalytics, h, hfind]

/-- Witness for claim C9 as amended: abc parses to NaN and gives 400; the
numeric -7 resolves no QRCode in the empty store and gives 404. -/
theorem claim_C9_amended_witness :
    GETanalytics emptyStore "abc" = .badRequest ∧
    GETanalytics emptyStore "-7" = .notFound :=
  ⟨(claim_C9_amended emptyStore "abc").1 (by decide),
   (claim_C9_amended emptyStore "-7").2 (-7) (by decide)
     (fun q hq => absurd hq (List.not_mem_nil q))⟩

theorem runAttempts_created (url fg bg : String) (codes : Nat → String)
    (dbFail : Nat → Bool) (render : Option String) (baseURL : String) (now : Nat) :
    ∀ (fuel attempt : Nat) (store : Store) (i : Nat) (c su du au : String)
      (store2 : Store) (n : Nat),
      runAttempts url fg bg codes dbFail render baseURL now attempt fuel store =
        (.created i c su du au, store2, n) →
      ∃ qr : QRCode, qr.short_code = c ∧ qr.target_url = url ∧
        store2.qr_codes = store.qr_codes ++ [qr] ∧
        ∀ q ∈ store.qr_codes, q.short_code ≠ c := by
  intro fuel
  induction fuel with
  | zero =>
    intro attempt store i c su du au store2 n h
    exact absurd h (by simp [runAttempts])
  | succ fuel ih =>
    intro attempt store i c su du au store2 n h
    simp only [runAttempts, createQRCode] at h
    by_cases hfail : dbFail attempt = true
    · simp [hfail] at h
    · simp only [Bool.not_eq_true] at hfail
      simp only [hfail, Bool.false_eq_true, if_false] at h
      by_cases hdup : (store.qr_codes.any fun q => q.short_code == codes attempt) = true
      · simp only [hdup, if_true] at h
        rcases hre : runAttempts url fg bg codes dbFail render baseURL now
          (attempt + 1) fuel store with ⟨r1, r2, r3⟩
        rw [hre] at h
        simp only [Prod.mk.injEq] at h
        obtain ⟨h1, h2, _⟩ := h
        exact ih (attempt + 1) store i c su du au store2 r3 (by rw [hre, h1, h2])
      · simp only [Bool.not_eq_true] at hdup
        simp only [hdup, Bool.false_eq_true, if_false] at h
        cases render with
        | none => simp at h
        | some d =>
          simp only [Prod.mk.injEq, GenResult.created.injEq] at h
          obtain ⟨⟨_, hcc, _, _, _⟩, hst, _⟩ := h
          refine ⟨⟨store.nextQrId, codes attempt, url, fg, bg, now, 0⟩,
            hcc, rfl, ?_, ?_⟩
          · rw [← hst]
          · intro q hq hqc
            have : (store.qr_codes.any fun q => q.short_code == codes attempt) = true :=
              List.any_eq_true.mpr ⟨q, hq, by simp [hqc, hcc]⟩
            rw [hdup] at this
            exact absurd this (by simp)

/-- Claim C1: issuing a QRCode via the generate operation (valid input, any
outcome of short-code generation and storage retries, successful render) and
then resolving its short code via the redirect handler yields a 302 redirect
whose location is exactly the target URL that was issued. -/
theorem claim_C1 (store : Store) (url fg bg : String) (codes : Nat → String)
    (dbFail : Nat → Bool) (render : Option String) (baseURL : String)
    (now now2 : Nat) (ua ipF ipR co ci : Option String) (parse : String → UAInfo)
    (scanWriteOk : Bool) (i : Nat) (c su du au : String) (store2 : Store) (n : Nat)
    (hpost : POSTgenerate store true url fg bg codes dbFail render baseURL now =
      (.created i c su du au, store2, n)) :
    (GETredirect store2 c ua ipF ipR co ci parse now2 scanWriteOk).1 =
      .redirect url 302 := by
  have hrun : runAttempts url fg bg codes dbFail render baseURL now 0 5 store =
      (.created i c su du au, store2, n) := by
    simpa [POSTgenerate] using hpost
  obtain ⟨qr, hc, hurl, hqrs, hnone⟩ :=
    runAttempts_created url fg bg codes dbFail render baseURL now 5 0 store
      i c su du au store2 n hrun
  have h1 : store.qr_codes.find? (fun q => q.short_code == c) = none :=
    List.find?_eq_none.mpr (fun q hq => by simpa using hnone q hq)
  have hfind : getQRCodeByShortCode store2 c = some qr := by
    unfold getQRCodeByShortCode
    rw [hqrs, find?_append_of_none _ _ _ h1]
    simp [List.find?_cons, hc]
  simp [GETredirect, hfind, hurl]

/-- Witness for claim C1: a full issue-then-resolve round trip on the empty
store returns the issued target URL. -/
theorem claim_C1_witness :
    (GETredirect ⟨[⟨1, "abcdefghij", "https://example.com", "#000000", "#FFFFFF", 0, 0⟩],
        [], 2, 1⟩ "abcdefghij" none none none none none uaParseStub 0 true).1 =
      .redirect "https://example.com" 302 :=
  claim_C1 emptyStore "https://example.com" "#000000" "#FFFFFF"
    (fun _ => "abcdefghij") (fun _ => false) (some "dataurl") "http://localhost:3000"
    0 0 none none none none none uaParseStub true
    1 "abcdefghij" "http://localhost:3000/r/abcdefghij" "dataurl"
    "http://localhost:3000/analytics/1"
    ⟨[⟨1, "abcdefghij", "https://example.com", "#000000", "#FFFFFF", 0, 0⟩], [], 2, 1⟩
    1 (by decide)

theorem runAttempts_count_le (url fg bg : String) (codes : Nat → String)
    (dbFail : Nat → Bool) (render : Option String) (baseURL : String) (now : Nat) :
    ∀ (fuel attempt : Nat) (store : Store),
      (runAttempts url fg bg codes dbFail render baseURL now attempt fuel store).2.2 ≤
        fuel := by
  intro fuel
  induction fuel with
  | zero =>
    intro attempt store
    simp [runAttempts]
  | succ fuel ih =>
    intro attempt store
    simp only [runAttempts]
    rcases hc : createQRCode store (dbFail attempt) (codes attempt) url fg bg now with e | p
    · cases e with
      | dupKey =>
        simp only
        exact Nat.succ_le_succ (ih (attempt + 1) store)
      | otherFailure => simp
    · cases render with
      | none => simp
      | some d => simp

theorem runAttempts_allDup (url fg bg : String) (codes : Nat → String)
    (dbFail : Nat → Bool) (render : Option String) (baseURL : String) (now : Nat) :
    ∀ (fuel attempt : Nat) (store : Store),
      (∀ j, j < fuel → dbFail (attempt + j) = false ∧
        (store.qr_codes.any fun q => q.short_code == codes (attempt + j)) = true) →
      runAttempts url fg bg codes dbFail render baseURL now attempt fuel store =
        (.serverError, store, fuel) := by
  intro fuel
  induction fuel with
  | zero =>
    intro attempt store _
    rfl
  | succ fuel ih =>
    intro attempt store hall
    have h0 := hall 0 (Nat.succ_pos fuel)
    simp only [Nat.add_zero] at h0
    have hrec := ih (attempt + 1) store (fun j hj => by
      have := hall (j + 1) (by omega)
      rwa [show attempt + (j + 1) = attempt + 1 + j by omega] at this)
    simp [runAttempts, createQRCode, h0.1, h0.2, hrec]

theorem runAttempts_failAt (url fg bg : String) (codes : Nat → String)
    (dbFail : Nat → Bool) (render : Option String) (baseURL : String) (now : Nat) :
    ∀ (fuel attempt : Nat) (store : Store) (k : Nat), k < fuel →
      (∀ j, j < k → dbFail (attempt + j) = false ∧
        (store.qr_codes.any fun q => q.short_code == codes (attempt + j)) = true) →
      dbFail (attempt + k) = true →
      runAttempts url fg bg codes dbFail render baseURL now attempt fuel store =
        (.serverError, store, k + 1) := by
  intro fuel
  induction fuel with
  | zero =>
    intro attempt store k hk
    exact absurd hk (Nat.not_lt_zero k)
  | succ fuel ih =>
    intro attempt store k hk hdups hfail
    cases k with
    | zero =>
      simp only [Nat.add_zero] at hfail
      simp [runAttempts, createQRCode, hfail]
    | succ k =>
      have h0 := hdups 0 (Nat.succ_pos k)
      simp only [Nat.add_zero] at h0
      have hrec := ih (attempt + 1) store k (by omega)
        (fun j hj => by
          have := hdups (j + 1) (by omega)
          rwa [show attempt + (j + 1) = attempt + 1 + j by omega] at this)
        (by rwa [show attempt + 1 + k = attempt + (k + 1) by omega])
      simp [runAttempts, createQRCode, h0.1, h0.2, hrec]

/-- Claim C3: issuance performs at most 5 persistence attempts; when every
attempt hits a uniqueness violation the bound is exhausted and the operation
fails with the retry-exhausted 500 after exactly 5 attempts, leaving the store
unchanged; a persistence failure that is not a uniqueness violation, at any
attempt, aborts immediately with a 500 after that attempt, without retrying. -/
theorem claim_C3 (store : Store) (url fg bg : String) (codes : Nat → String)
    (dbFail : Nat → Bool) (render : Option String) (baseURL : String) (now : Nat) :
    (POSTgenerate store true url fg bg codes dbFail render baseURL now).2.2 ≤ 5 ∧
    ((∀ i, i < 5 → dbFail i = false ∧
        (store.qr_codes.any fun q => q.short_code == codes i) = true) →
      POSTgenerate store true url fg bg codes dbFail render baseURL now =
        (.serverError, store, 5)) ∧
    (∀ k, k < 5 →
      (∀ j, j < k → dbFail j = false ∧
        (store.qr_codes.any fun q => q.short_code == codes j) = true) →
      dbFail k = true →
      POSTgenerate store true url fg bg codes dbFail render baseURL now =
        (.serverError, store, k + 1)) := by
  refine ⟨?_, ?_, ?_⟩
  · exact runAttempts_count_le url fg bg codes dbFail render baseURL now 5 0 store
  · intro hall
    have := runAttempts_allDup url fg bg codes dbFail render baseURL now 5 0 store
      (fun j hj => by simpa using hall j hj)
    simpa [POSTgenerate] using this
  · intro k hk hdups hfail
    have := runAttempts_failAt url fg bg codes dbFail render baseURL now 5 0 store k hk
      (fun j hj => by simpa using hdups j hj) (by simpa using hfail)
    simpa [POSTgenerate] using this

/-- Witness for claim C3: with a store already holding the only generated code,
five colliding attempts exhaust the retry bound; with a failing storage layer,
exactly one attempt is made. -/
theorem claim_C3_witness :
    (POSTgenerate oneQrStore true "u" "#000000" "#FFFFFF" (fun _ => "abc")
      (fun _ => false) none "b" 0).2.2 ≤ 5 ∧
    POSTgenerate oneQrStore true "u" "#000000" "#FFFFFF" (fun _ => "abc")
      (fun _ => false) none "b" 0 = (.serverError, oneQrStore, 5) ∧
    POSTgenerate oneQrStore true "u" "#000000" "#FFFFFF" (fun _ => "abc")
      (fun _ => true) none "b" 0 = (.serverError, oneQrStore, 1) :=
  ⟨(claim_C3 oneQrStore "u" "#000000" "#FFFFFF" (fun _ => "abc") (fun _ => false)
      none "b" 0).1,
   (claim_C3 oneQrStore "u" "#000000" "#FFFFFF" (fun _ => "abc") (fun _ => false)
      none "b" 0).2.1 (fun i _ => ⟨rfl, by decide⟩),
   (claim_C3 oneQrStore "u" "#000000" "#FFFFFF" (fun _ => "abc") (fun _ => true)
      none "b" 0).2.2 0 (by decide) (fun j hj => absurd hj (Nat.not_lt_zero j)) rfl⟩

/-- Claim C10: issuance is not atomic with its response: when the QRCode record
persists successfully but the image rendering step then fails, the endpoint
returns 500, yet the resulting store still contains the newly created QRCode
with its consumed short code. -/
theorem claim_C10 (store : Store) (url fg bg : String) (codes : Nat → String)
    (dbFail : Nat → Bool) (baseURL : String) (now : Nat)
    (h0 : dbFail 0 = false)
    (h1 : (store.qr_codes.any fun q => q.short_code == codes 0) = false) :
    POSTgenerate store true url fg bg codes dbFail none baseURL now =
      (.serverError,
        { store with
            qr_codes := store.qr_codes ++ [⟨store.nextQrId, codes 0, url, fg, bg, now, 0⟩],
            nextQrId := store.nextQrId + 1 },
        1) := by
  simp [POSTgenerate, runAttempts, createQRCode, h0, h1]

/-- Witness for claim C10: on the empty store with a failing renderer, the
response is 500 while the QRCode row exists afterwards. -/
theorem claim_C10_witness :
    POSTgenerate emptyStore true "https://example.com" "#000000" "#FFFFFF"
      (fun _ => "abcdefghij") (fun _ => false) none "b" 7 =
      (.serverError,
        ⟨[⟨1, "abcdefghij", "https://example.com", "#000000", "#FFFFFF", 7, 0⟩], [], 2, 1⟩,
        1) :=
  claim_C10 emptyStore "https://example.com" "#000000" "#FFFFFF"
    (fun _ => "abcdefghij") (fun _ => false) "b" 7 rfl (by decide)

/-- Claim C5: for an existing QRCode id, the analytics summarize operation
returns a 200 payload whose total_scans equals the exact number of ScanEvents
whose qr_code_id is that id, and the whole response is unchanged under
arbitrary rewrites of the denormalized scan_count column: the counter is never
consulted. -/
theorem claim_C5 (store : Store) (s : String) (qr : QRCode)
    (hparse : jsParseInt s = some (qr.id : Int)) (hmem : qr ∈ store.qr_codes) :
    (∃ a : ScanAnalytics, GETanalytics store s = .ok a ∧
      a.total_scans =
        store.scans.countP (fun sc => (sc.qr_code_id : Int) == (qr.id : Int))) ∧
    (∀ f : Nat → Nat, GETanalytics (setScanCounts f store) s = GETanalytics store s) := by
  have hsome : (getQRCodeById store (qr.id : Int)).isSome := by
    unfold getQRCodeById
    exact List.find?_isSome.mpr ⟨qr, hmem, by simp⟩
  obtain ⟨q0, hq0⟩ := Option.isSome_iff_exists.mp hsome
  constructor
  · have hok : GETanalytics store s =
        .ok ⟨getTotalScans store (qr.id : Int), getScansByDate store (qr.id : Int),
          getDeviceBreakdown store (qr.id : Int), getBrowserBreakdown store (qr.id : Int),
          getLocationBreakdown store (qr.id : Int)⟩ := by
      simp [GETanalytics, hparse, hq0]
    exact ⟨_, hok, by simp [getTotalScans, scansFor, List.countP_eq_length_filter]⟩
  · intro f
    have hmap : getQRCodeById (setScanCounts f store) (qr.id : Int) =
        some { q0 with scan_count := f q0.id } := by
      unfold getQRCodeById setScanCounts
      simp only [List.find?_map]
      have : ((fun q : QRCode => (q.id : Int) == (qr.id : Int)) ∘
          (fun q : QRCode => { q with scan_count := f q.id })) =
          (fun q : QRCode => (q.id : Int) == (qr.id : Int)) := rfl
      rw [this]
      have hq0b : store.qr_codes.find? (fun q => (q.id : Int) == (qr.id : Int)) = some q0 :=
        hq0
      rw [hq0b]
      rfl
    simp only [GETanalytics, hparse, hq0, hmap]
    rfl

/-- Witness for claim C5: one stored code with two scans of its own and one
foreign scan; total_scans is 2 whatever the stale counter says. -/
theorem claim_C5_witness :
    (∃ a : ScanAnalytics, GETanalytics ⟨[⟨1, "c", "u", "#000000", "#FFFFFF", 0, 99⟩],
        [⟨1, 1, 5, none, none, none, none, some "mobile", some "Safari"⟩,
         ⟨2, 1, 6, none, none, none, none, some "desktop", some "Chrome"⟩,
         ⟨3, 7, 6, none, none, none, none, some "desktop", some "Chrome"⟩], 2, 4⟩ "1" =
          .ok a ∧
      a.total_scans =
        (([⟨1, 1, 5, none, none, none, none, some "mobile", some "Safari"⟩,
          ⟨2, 1, 6, none, none, none, none, some "desktop", some "Chrome"⟩,
          ⟨3, 7, 6, none, none, none, none, some "desktop", some "Chrome"⟩] : List Scan).countP
            (fun sc => (sc.qr_code_id : Int) == ((1 : Nat) : Int)))) ∧
    (∀ f : Nat → Nat,
      GETanalytics (setScanCounts f ⟨[⟨1, "c", "u", "#000000", "#FFFFFF", 0, 99⟩],
        [⟨1, 1, 5, none, none, none, none, some "mobile", some "Safari"⟩,
         ⟨2, 1, 6, none, none, none, none, some "desktop", some "Chrome"⟩,
         ⟨3, 7, 6, none, none, none, none, some "desktop", some "Chrome"⟩], 2, 4⟩) "1" =
      GETanalytics ⟨[⟨1, "c", "u", "#000000", "#FFFFFF", 0, 99⟩],
        [⟨1, 1, 5, none, none, none, none, some "mobile", some "Safari"⟩,
         ⟨2, 1, 6, none, none, none, none, some "desktop", some "Chrome"⟩,
         ⟨3, 7, 6, none, none, none, none, some "desktop", some "Chrome"⟩], 2, 4⟩ "1") :=
  claim_C5 ⟨[⟨1, "c", "u", "#000000", "#FFFFFF", 0, 99⟩],
    [⟨1, 1, 5, none, none, none, none, some "mobile", some "Safari"⟩,
     ⟨2, 1, 6, none, none, none, none, some "desktop", some "Chrome"⟩,
     ⟨3, 7, 6, none, none, none, none, some "desktop", some "Chrome"⟩], 2, 4⟩ "1"
    ⟨1, "c", "u", "#000000", "#FFFFFF", 0, 99⟩ (by decide) (by decide)

/-- A store whose scans mix a null device type with the literal string unknown
(the schema allows null device_type, and the classifier writes the literal). -/
def mixedStore : Store :=
  ⟨[⟨1, "c", "https://example.com", "#000000", "#FFFFFF", 0, 0⟩],
   [⟨1, 1, 0, none, none, none, none, none, some "Chrome"⟩,
    ⟨2, 1, 0, none, none, none, none, some "unknown", some "Chrome"⟩], 2, 3⟩

/-- Counterexample for claim C8: the device breakdown groups by the raw nullable
device_type column and only then coalesces the label, so a null device type and
a literal unknown device type form two distinct groups that both display the
label unknown — the label appears twice, contradicting the claim that each
device label appears at most once. -/
theorem claim_C8_counterexample :
    (getDeviceBreakdown mixedStore 1).map Prod.fst = ["unknown", "unknown"] ∧
    ¬ ((getDeviceBreakdown mixedStore 1).map Prod.fst).Nodup := by
  constructor
  · decide
  · decide

/-- Claim C8 as amended: per-calendar-day counts are ordered ascending by date;
device-type counts have one entry per distinct raw stored device type, with
null coalesced to the literal unknown (so the unknown label may appear twice
when both null and the literal are stored, every entry counting its own raw
group exactly); browser counts are the top 10 descending by count with null
coalesced to unknown; country+city counts are the top 20 descending by count
with nulls coalesced to unknown. -/
theorem claim_C8_amended (store : Store) (qrId : Int) :
    (getScansByDate store qrId).Pairwise (fun a b => a.1 ≤ b.1) ∧
    (∀ p ∈ getDeviceBreakdown store qrId, ∃ k : Option String,
      p.1 = coalesce k ∧
      p.2 = (scansFor store qrId).countP (fun sc => decide (sc.device_type = k)) ∧
      0 < p.2) ∧
    (getBrowserBreakdown store qrId).Pairwise (fun a b => b.2 ≤ a.2) ∧
    (getBrowserBreakdown store qrId).length ≤ 10 ∧
    (∀ p ∈ getBrowserBreakdown store qrId, ∃ k : Option String,
      p.1 = coalesce k ∧
      p.2 = (scansFor store qrId).countP (fun sc => decide (sc.browser = k)) ∧
      0 < p.2) ∧
    (∀ p ∈ getBrowserBreakdown store qrId,
      ∀ q ∈ groupCounts (fun sc => sc.browser) (scansFor store qrId),
        (coalesce q.1, q.2) ∉ getBrowserBreakdown store qrId → q.2 ≤ p.2) ∧
    (getLocationBreakdown store qrId).Pairwise (fun a b => b.2.2 ≤ a.2.2) ∧
    (getLocationBreakdown store qrId).length ≤ 20 ∧
    (∀ p ∈ getLocationBreakdown store qrId, ∃ k : Option String × Option String,
      p.1 = coalesce k.1 ∧ p.2.1 = coalesce k.2 ∧
      p.2.2 = (scansFor store qrId).countP (fun sc => decide ((sc.country, sc.city) = k)) ∧
      0 < p.2.2) ∧
    (∀ p ∈ getLocationBreakdown store qrId,
      ∀ q ∈ groupCounts (fun sc => (sc.country, sc.city)) (scansFor store qrId),
        (coalesce q.1.1, coalesce q.1.2, q.2) ∉ getLocationBreakdown store qrId →
          q.2 ≤ p.2.2) := by
  refine ⟨?_, ?_, ?_, ?_, ?_, ?_, ?_, ?_, ?_, ?_⟩
  · have h := pairwise_sortByLe dateLe dateLe_trans dateLe_total
      (groupCounts (fun sc => dateOf sc.scanned_at) (scansFor store qrId))
    exact h.imp (fun hab => by simpa [dateLe] using hab)
  · intro p hp
    unfold getDeviceBreakdown at hp
    rcases List.mem_map.mp hp with ⟨q, hq, rfl⟩
    obtain ⟨hcount, hpos⟩ := mem_groupCounts _ _ q hq
    exact ⟨q.1, rfl, hcount, hpos⟩
  · have hs := pairwise_sortByLe countGe countGe_trans countGe_total
      (groupCounts (fun sc => sc.browser) (scansFor store qrId))
    have ht := hs.sublist (List.take_sublist 10 _)
    exact List.pairwise_map.mpr (ht.imp (fun hab => by simpa [countGe] using hab))
  · simp only [getBrowserBreakdown, List.length_map, List.length_take]
    omega
  · intro p hp
    unfold getBrowserBreakdown at hp
    rcases List.mem_map.mp hp with ⟨q, hq, rfl⟩
    have hq2 : q ∈ groupCounts (fun sc => sc.browser) (scansFor store qrId) :=
      (mem_sortByLe _ _ _).mp (List.take_subset _ _ hq)
    obtain ⟨hcount, hpos⟩ := mem_groupCounts _ _ q hq2
    exact ⟨q.1, rfl, hcount, hpos⟩
  · intro p hp q hq hnot
    unfold getBrowserBreakdown at hp hnot
    rcases List.mem_map.mp hp with ⟨p0, hp0, rfl⟩
    have hqtake : q ∉ (sortByLe countGe
        (groupCounts (fun sc => sc.browser) (scansFor store qrId))).take 10 := by
      intro hmem
      exact hnot (List.mem_map.mpr ⟨q, hmem, rfl⟩)
    have := top_of_take countGe countGe_trans countGe_total _ 10 p0 hp0 q hq hqtake
    simpa [countGe] using this
  · have hs := pairwise_sortByLe countGe countGe_trans countGe_total
      (groupCounts (fun sc => (sc.country, sc.city)) (scansFor store qrId))
    have ht := hs.sublist (List.take_sublist 20 _)
    exact List.pairwise_map.mpr (ht.imp (fun hab => by simpa [countGe] using hab))
  · simp only [getLocationBreakdown, List.length_map, List.length_take]
    omega
  · intro p hp
    unfold getLocationBreakdown at hp
    rcases List.mem_map.mp hp with ⟨q, hq, rfl⟩
    have hq2 : q ∈ groupCounts (fun sc => (sc.country, sc.city)) (scansFor store qrId) :=
      (mem_sortByLe _ _ _).mp (List.take_subset _ _ hq)
    obtain ⟨hcount, hpos⟩ := mem_groupCounts _ _ q hq2
    exact ⟨q.1, rfl, rfl, hcount, hpos⟩
  · intro p hp q hq hnot
    unfold getLocationBreakdown at hp hnot
    rcases List.mem_map.mp hp with ⟨p0, hp0, rfl⟩
    have hqtake : q ∉ (sortByLe countGe
        (groupCounts (fun sc => (sc.country, sc.city)) (scansFor store qrId))).take 20 := by
      intro hmem
      exact hnot (List.mem_map.mpr ⟨q, hmem, rfl⟩)
    have := top_of_take countGe countGe_trans countGe_total _ 20 p0 hp0 q hq hqtake
    simpa [countGe] using this

/-- Witness for claim C8 as amended, evaluated on the mixed store: the date
series is ascending, the browser list is within its limit, and the duplicated
unknown device label is backed by its own raw group of count one. -/
theorem claim_C8_amended_witness :
    (getScansByDate mixedStore 1).Pairwise (fun a b => a.1 ≤ b.1) ∧
    (getBrowserBreakdown mixedStore 1).length ≤ 10 ∧
    (∃ k : Option String, ("unknown", (1 : Nat)).1 = coalesce k ∧
      ("unknown", (1 : Nat)).2 =
        (scansFor mixedStore 1).countP (fun sc => decide (sc.device_type = k)) ∧
      0 < ("unknown", (1 : Nat)).2) := by
  have h := claim_C8_amended mixedStore 1
  exact ⟨h.1, h.2.2.2.1, h.2.1 ("unknown", 1) (by decide)⟩

end QrTrack
